import Mathlib

/-!
Verification of the in-memory list view engine of the invevo app:
the filter/sort/paginate/search-suggest pipeline of the product screen
(`app/(protected)/product.tsx`) and the customer screen (its source file
name is unknown; it is the screen with slice-based pagination).

Numbers model JavaScript values as follows: timestamps are epoch
milliseconds as `Nat`; optional fields (`expiryDate?`, `notes?`, possibly
missing `updatedAt` / `minStock` in fetched documents) are `Option`: the
code defends against their absence (`?.`, `||`, `&&`).
-/

namespace Invevo

/-- The whitespace characters removed by JavaScript `String.trim` (ASCII part;
the screens only ever test `query.trim().length > 0`). -/
def jsWhitespace (c : Char) : Bool :=
  c == ' ' || c == '\t' || c == '\n' || c == '\r'

/-- `query.trim().length > 0`: the string has at least one non-whitespace char. -/
def nonBlank (s : String) : Bool :=
  !(s.data.all jsWhitespace)

/-- `pat` occurs at the very front of `hay` (char-list version). -/
def beginsWith : List Char → List Char → Bool
  | _, [] => true
  | [], _ :: _ => false
  | h :: hs, p :: ps => h == p && beginsWith hs ps

/-- JavaScript `hay.includes(pat)` on char lists: `pat` occurs contiguously in `hay`. -/
def hasSub : List Char → List Char → Bool
  | [], pat => pat.isEmpty
  | h :: t, pat => beginsWith (h :: t) pat || hasSub t pat

/-- JavaScript `field.toLowerCase().includes(q.toLowerCase())`. -/
def lowerIncl (field q : String) : Bool :=
  hasSub (field.data.map Char.toLower) (q.data.map Char.toLower)

/-! ## Product screen model (`app/(protected)/product.tsx`) -/

/-- The `Product` interface, restricted to the fields the list view engine reads.
`minStock` and `updatedAt` are `Option` because fetched documents may lack them
(the code guards with `product.minStock || 5` and `b.updatedAt?.getTime() || 0`). -/
structure Product where
  id : String
  productName : String
  sku : String
  category : String
  brand : String
  stockQuantity : Nat
  minStock : Option Nat
  expiryDate : Option Nat
  active : Bool
  merchantId : String
  updatedAt : Option Nat
deriving DecidableEq

/-- The `activeFilter` member of `FilterState`. -/
inductive ActiveFilter
  | all
  | lowStock
  | expiring
  | expired
  | inactive
deriving DecidableEq

/-- The `FilterState` interface of the product screen. -/
structure FilterState where
  searchQuery : String
  activeFilter : ActiveFilter
deriving DecidableEq

/-- JavaScript `product.minStock || 5`: `undefined` and `0` are falsy, so both
fall back to the default 5. -/
def minStockOr5 (p : Product) : Nat :=
  match p.minStock with
  | none => 5
  | some m => if m == 0 then 5 else m

/-- The low-stock test of `applyFilters`:
`product.stockQuantity <= (product.minStock || 5)`. -/
def belowMinStock (p : Product) : Bool :=
  decide (p.stockQuantity ≤ minStockOr5 p)

/-- The free-text match of the product screen (`applyFilters` and
`handleSearchChange` use the same four fields: name, SKU, category, brand). -/
def productMatches (q : String) (p : Product) : Bool :=
  lowerIncl p.productName q || lowerIncl p.sku q ||
    lowerIncl p.category q || lowerIncl p.brand q

/-- `30 * 24 * 60 * 60 * 1000` ms, the window of `thirtyDaysFromNow`. -/
def thirtyDaysMs : Nat := 30 * 24 * 60 * 60 * 1000

/-- The `case 'expiring'` test of `applyFilters`:
`product.expiryDate && product.expiryDate > now && product.expiryDate <= thirtyDaysFromNow`. -/
def expiringFilter (now : Nat) (p : Product) : Bool :=
  match p.expiryDate with
  | some d => decide (now < d) && decide (d ≤ now + thirtyDaysMs)
  | none => false

/-- The `case 'expired'` test of `applyFilters`:
`product.expiryDate && product.expiryDate <= now`. -/
def expiredFilter (now : Nat) (p : Product) : Bool :=
  match p.expiryDate with
  | some d => decide (d ≤ now)
  | none => false

/-- First step of `applyFilters`:
`if (filters.activeFilter !== 'inactive') filtered = filtered.filter(product => product.active)`. -/
def activePass (fs : FilterState) (l : List Product) : List Product :=
  if fs.activeFilter ≠ ActiveFilter.inactive then l.filter (fun p => p.active) else l

/-- Second step of `applyFilters`:
`if (filters.searchQuery.trim()) filtered = filtered.filter(... four fields ...)`. -/
def searchPass (fs : FilterState) (l : List Product) : List Product :=
  if nonBlank fs.searchQuery then l.filter (productMatches fs.searchQuery) else l

/-- Third step of `applyFilters`: the `switch (filters.activeFilter)`. -/
def categoryPass (fs : FilterState) (now : Nat) (l : List Product) : List Product :=
  match fs.activeFilter with
  | ActiveFilter.all => l
  | ActiveFilter.lowStock => l.filter belowMinStock
  | ActiveFilter.expiring => l.filter (expiringFilter now)
  | ActiveFilter.expired => l.filter (expiredFilter now)
  | ActiveFilter.inactive => l.filter (fun p => !p.active)

/-- `applyFilters` of the product screen, as the pure function from the record
store (`products`), the filter state and the wall clock (`new Date()`, passed
explicitly here) to the filtered list it stores in `filteredProducts`: the
three successive narrowing steps of the source, in source order. -/
def applyFilters (products : List Product) (fs : FilterState) (now : Nat) :
    List Product :=
  categoryPass fs now (searchPass fs (activePass fs products))

/-- The suggestion computation of the product screen's `handleSearchChange`:
on a non-blank query, the first 5 active store records matching the query in
name, SKU, category or brand; otherwise the empty list. -/
def productSuggest (products : List Product) (q : String) : List Product :=
  if nonBlank q then
    (products.filter (fun p => p.active && productMatches q p)).take 5
  else []

/-- Sort key of `fetchProducts`: `(b.updatedAt?.getTime() || 0)`. -/
def tsKey (p : Product) : Nat :=
  p.updatedAt.getD 0

/-- The sort of `fetchProducts`:
`productsList.sort((a, b) => (b.updatedAt?.getTime() || 0) - (a.updatedAt?.getTime() || 0))`,
a stable sort placing larger timestamps first (JavaScript `Array.sort` is
required to be stable, and a stable descending sort is `mergeSort` with the
relation "my key is at least yours"). -/
def sortByUpdatedDesc (l : List Product) : List Product :=
  l.mergeSort (fun a b => decide (tsKey b ≤ tsKey a))

/-! ## Customer screen model (the paginated list screen among the unnamed
source files) -/

/-- The `Customer` interface, restricted to the fields the engine reads. -/
structure Customer where
  id : String
  name : String
  phone : String
  notes : Option String
  merchantId : String
  updatedAt : Option Nat
deriving DecidableEq

/-- The suggestion match of the customer screen's `handleSearchChange`:
name or phone only. -/
def customerSuggestMatch (q : String) (c : Customer) : Bool :=
  lowerIncl c.name q || lowerIncl c.phone q

/-- The parenthesized notes clause of the customer screen's `applyFilters`:
`(customer.notes && customer.notes.toLowerCase().includes(query))`. -/
def customerNotesMatch (q : String) (c : Customer) : Bool :=
  match c.notes with
  | some n => lowerIncl n q
  | none => false

/-- The free-text match of the customer screen's `applyFilters`:
name, phone, or (when present) notes — the first two disjuncts are exactly
the suggestion match. -/
def customerFilterMatch (q : String) (c : Customer) : Bool :=
  customerSuggestMatch q c || customerNotesMatch q c

/-- The filtered list the customer screen's `applyFilters` stores in
`filteredCustomers`. -/
def customerFiltered (customers : List Customer) (q : String) : List Customer :=
  if nonBlank q then customers.filter (customerFilterMatch q) else customers

/-- The suggestion computation of the customer screen's `handleSearchChange`:
first 5 store records matching in name or phone; empty on a blank query. -/
def customerSuggest (customers : List Customer) (q : String) : List Customer :=
  if nonBlank q then (customers.filter (customerSuggestMatch q)).take 5 else []

/-- Sort key of `fetchCustomers`: `(b.updatedAt?.getTime() || 0)`. -/
def cKey (c : Customer) : Nat :=
  c.updatedAt.getD 0

/-- The stable descending sort of `fetchCustomers`. -/
def sortCustomers (l : List Customer) : List Customer :=
  l.mergeSort (fun a b => decide (cKey b ≤ cKey a))

/-- The view state of the customer screen: the record store (`customers`),
the free-text query, the derived `filteredCustomers` and `paginatedCustomers`
lists, and the `PaginationState`. -/
structure CustomersScreenState where
  customers : List Customer
  searchQuery : String
  filteredCustomers : List Customer
  paginatedCustomers : List Customer
  currentPage : Nat
  pageSize : Nat
  hasMoreData : Bool
  isLoadingMore : Bool
deriving DecidableEq

/-- `applyFilters` of the customer screen, with its net effect on the state:
it recomputes `filteredCustomers`, resets `currentPage` to 1, slices
`filtered.slice(0, pageSize)` into `paginatedCustomers`, and finally sets
`hasMoreData = filtered.length > pagination.pageSize` (the intermediate
`hasMoreData: true` it writes first is overwritten by this last update). -/
def applyFiltersC (s : CustomersScreenState) : CustomersScreenState :=
  let filtered := customerFiltered s.customers s.searchQuery
  { s with
    filteredCustomers := filtered
    currentPage := 1
    paginatedCustomers := filtered.take s.pageSize
    hasMoreData := decide (s.pageSize < filtered.length) }

/-- `loadMoreCustomers`: no-op while `!hasMoreData || isLoadingMore`; otherwise
slice the next page out of `filteredCustomers` (`slice(start, end)` is
`(drop start).take pageSize`), mark the end of the data when the slice is
empty, and otherwise append the slice and advance the page. -/
def loadMoreC (s : CustomersScreenState) : CustomersScreenState :=
  if !s.hasMoreData || s.isLoadingMore then s
  else
    let nextPage := s.currentPage + 1
    let startIndex := (nextPage - 1) * s.pageSize
    let newCustomers := (s.filteredCustomers.drop startIndex).take s.pageSize
    if newCustomers.isEmpty then { s with hasMoreData := false }
    else
      { s with
        paginatedCustomers := s.paginatedCustomers ++ newCustomers
        currentPage := nextPage
        hasMoreData := decide (startIndex + s.pageSize < s.filteredCustomers.length) }

/-- The screen's initial `useState` values (`pageSize: 20`), after the mount
effect has run `applyFilters` once (the effect chain always runs it before
anything is rendered or grown). -/
def initState : CustomersScreenState :=
  applyFiltersC
    { customers := []
      searchQuery := ""
      filteredCustomers := []
      paginatedCustomers := []
      currentPage := 1
      pageSize := 20
      hasMoreData := true
      isLoadingMore := false }

/-- One observable transition of the customer screen: a store reload
(`fetchCustomers` sorts and replaces `customers`, and the effect chain reruns
`applyFilters`), a search-query change (likewise rerunning `applyFilters`),
or a `loadMoreCustomers` grow. -/
inductive Step : CustomersScreenState → CustomersScreenState → Prop
  | load (s : CustomersScreenState) (cs : List Customer) :
      Step s (applyFiltersC { s with customers := sortCustomers cs })
  | setQuery (s : CustomersScreenState) (q : String) :
      Step s (applyFiltersC { s with searchQuery := q })
  | loadMore (s : CustomersScreenState) :
      Step s (loadMoreC s)

/-- States of the customer screen reachable from the initial state. -/
inductive Reachable : CustomersScreenState → Prop
  | init : Reachable initState
  | step {s s' : CustomersScreenState} : Reachable s → Step s s' → Reachable s'

/-! ## Record Store `load` (spec §4.1 / §7) -/

/-- The failure of `Record Store.load`. -/
inductive LoadError
  | tenantMismatch
deriving DecidableEq

/-- Modelled from the spec: `Record Store.load(records)` is not in the source
(the screens only ever fetch via a query already restricted to one
`merchantId`, so no load-time tenant check exists in `src/`); per §4.1 it
"replaces the entire store content" and "must reject (fail with
`TenantMismatch`) if incoming records contain more than one distinct tenant
identifier". -/
def load (records : List Product) : Except LoadError (List Product) :=
  match records with
  | [] => Except.ok []
  | r :: _ =>
    if records.all (fun x => x.merchantId == r.merchantId) then Except.ok records
    else Except.error LoadError.tenantMismatch

/-- Modelled from the spec: the store a caller holds after invoking `load` —
the new content on success, the old content untouched on `TenantMismatch`
(§7: "fatal to that load call, store left unchanged"). -/
def applyLoad (store records : List Product) : List Product :=
  match load records with
  | Except.ok r => r
  | Except.error _ => store

/-! ## Date predicates of spec §4.2 -/

/-- Modelled from the spec: the days-parametric `expiringWithin(days, now)` of
§4.2 is not in `src/` (the source hardcodes a 30-day window); "true if
`expiryDate` is set, strictly greater than `now`, and less than or equal to
`now + days`", with `days` converted to milliseconds exactly as the source
builds `thirtyDaysFromNow`. At `days = 30` this is the source's filter. -/
def expiringWithin (days now : Nat) (p : Product) : Bool :=
  match p.expiryDate with
  | some d => decide (now < d) && decide (d ≤ now + days * (24 * 60 * 60 * 1000))
  | none => false

/-- Modelled from the spec: `expired(now)` of §4.2, "true if `expiryDate` is
set and less than or equal to `now`"; identical to the source's
`case 'expired'` filter. -/
def expired (now : Nat) (p : Product) : Bool :=
  match p.expiryDate with
  | some d => decide (d ≤ now)
  | none => false

/-! ## Statements of claims under test, written from the claim's words
(to be compared against the source-derived functions above) -/

/-- The low-stock predicate as claim C7 words it: the default 5 applies only
when `minStock` is unset; a stored value — including 0 — is used as-is. -/
def claimBelowMinStock (p : Product) : Bool :=
  decide (p.stockQuantity ≤ (match p.minStock with
    | some m => m
    | none => 5))

/-- Lexicographic order on char lists (by code point), for the identifier
tie-break claim C3 demands. -/
def charListLe : List Char → List Char → Bool
  | [], _ => true
  | _ :: _, [] => false
  | a :: as, b :: bs => if a == b then charListLe as bs else decide (a.toNat < b.toNat)

/-- Identifier order (ascending, §4.3) on strings. -/
def idLe (a b : String) : Bool :=
  charListLe a.data b.data

/-- The ordering claim C3 asserts of the filtered list: descending
last-modified timestamp with ties broken by ascending identifier. -/
def ClaimSortedByC3 (l : List Product) : Prop :=
  l.Pairwise (fun a b => tsKey b < tsKey a ∨ (tsKey a = tsKey b ∧ idLe a.id b.id = true))

/-- The code's actual ordering of the filtered list: descending last-modified
timestamp, missing `updatedAt` as 0, no tie-break. -/
def SortedByUpdatedDesc (l : List Product) : Prop :=
  l.Pairwise (fun a b => tsKey b ≤ tsKey a)

/-! ## Concrete scenario data -/

/-- A product template; scenario records override the fields they fix. -/
def baseProduct : Product :=
  { id := "p"
    productName := "prod"
    sku := "sku"
    category := "cat"
    brand := "brand"
    stockQuantity := 1
    minStock := some 5
    expiryDate := none
    active := true
    merchantId := "m1"
    updatedAt := none }

/-- Scenario record `{id:1, stockQuantity:2, minStock:5, active:true}`. -/
def prod1 : Product :=
  { baseProduct with id := "1", stockQuantity := 2, minStock := some 5, active := true }

/-- Scenario record `{id:2, stockQuantity:10, minStock:5, active:true}`. -/
def prod2 : Product :=
  { baseProduct with id := "2", stockQuantity := 10, minStock := some 5, active := true }

/-- Scenario record `{id:3, stockQuantity:1, minStock:5, active:false}`. -/
def prod3 : Product :=
  { baseProduct with id := "3", stockQuantity := 1, minStock := some 5, active := false }

/-- The three-product record store of the spec scenario. -/
def store3 : List Product :=
  [prod1, prod2, prod3]

/-- `2024-01-01T00:00:00Z` in epoch milliseconds. -/
def jan1_2024 : Nat := 1704067200000

/-- `2024-01-15T00:00:00Z` in epoch milliseconds. -/
def jan15_2024 : Nat := 1705276800000

/-- `2024-02-15T00:00:00Z` in epoch milliseconds. -/
def feb15_2024 : Nat := 1707955200000

/-- `2023-12-31T00:00:00Z` in epoch milliseconds. -/
def dec31_2023 : Nat := 1703980800000

/-- Two products sharing `updatedAt` whose identifier order disagrees with
their store order: a tie the claimed identifier tie-break would have to
reorder. -/
def prodTieB : Product :=
  { baseProduct with id := "b", updatedAt := some 5 }

/-- See `prodTieB`. -/
def prodTieA : Product :=
  { baseProduct with id := "a", updatedAt := some 5 }

/-- A customer template for scenario stores. -/
def baseCustomer : Customer :=
  { id := "c"
    name := "name"
    phone := "000"
    notes := none
    merchantId := "m1"
    updatedAt := none }

/-- A store of 55 identical customers, for the grow scenario of C2. -/
def customers55 : List Customer :=
  List.replicate 55 baseCustomer

/-- The customer screen state after loading `customers55` into the initial
state (a reachable state: one `Step.load` from `initState`). -/
def s55 : CustomersScreenState :=
  applyFiltersC { initState with customers := sortCustomers customers55 }

/-- A customer matching the query `"john"` in name. -/
def johnCustomer : Customer :=
  { baseCustomer with id := "j", name := "John Smith", phone := "123" }

/-- A customer matching `"john"` in neither name nor phone. -/
def aliceCustomer : Customer :=
  { baseCustomer with id := "a", name := "Alice", phone := "555" }

/-- A store of 100 customers of which exactly 7 match `"john"` in name or
phone, for the suggestion scenario of C8. -/
def store100 : List Customer :=
  List.replicate 7 johnCustomer ++ List.replicate 93 aliceCustomer

/-- A customer whose notes contain `"vip"` but whose name and phone do not,
for C10. -/
def notesOnlyCustomer : Customer :=
  { baseCustomer with id := "n", name := "Bob", phone := "777", notes := some "vip client" }

/-- The view state of the product screen relevant to the suggestion path:
the record store plus the filter-pipeline and suggestion state the screen
also holds. -/
structure ProductScreenState where
  products : List Product
  filters : FilterState
  filteredProducts : List Product
  searchSuggestions : List Product
  showSuggestions : Bool
deriving DecidableEq

/-- The suggestion list `handleSearchChange` computes when the state is `s`
and the typed query is `q` — literally the code's
`products.filter(p => p.active && (...)).slice(0, 5)` over the state's record
store, guarded by `query.trim().length > 0`. -/
def computeSuggestions (s : ProductScreenState) (q : String) : List Product :=
  if nonBlank q then
    (s.products.filter (fun p => p.active && productMatches q p)).take 5
  else []

/-- The structural invariant of the customer screen:
`paginatedCustomers` is the prefix of `filteredCustomers` of (attempted)
length `currentPage * pageSize`; `filteredCustomers` is the filter of the
store by the current query; and the store is sorted by descending
last-modified key. Reachable states satisfy it. -/
def Inv (s : CustomersScreenState) : Prop :=
  s.paginatedCustomers = s.filteredCustomers.take (s.currentPage * s.pageSize) ∧
  s.filteredCustomers = customerFiltered s.customers s.searchQuery ∧
  s.customers.Pairwise (fun a b => cKey b ≤ cKey a)

/-- A mismatching-tenant record, for the `load` counterscenario. -/
def prodOtherTenant : Product :=
  { baseProduct with id := "x", merchantId := "m2" }

/-! ## Helper lemmas -/

theorem activePass_sublist (fs : FilterState) (l : List Product) :
    List.Sublist (activePass fs l) l := by
  unfold activePass
  split
  · exact List.filter_sublist l
  · exact List.Sublist.refl l

theorem searchPass_sublist (fs : FilterState) (l : List Product) :
    List.Sublist (searchPass fs l) l := by
  unfold searchPass
  split
  · exact List.filter_sublist l
  · exact List.Sublist.refl l

theorem categoryPass_sublist (fs : FilterState) (now : Nat) (l : List Product) :
    List.Sublist (categoryPass fs now l) l := by
  unfold categoryPass
  split
  · exact List.Sublist.refl l
  · exact List.filter_sublist l
  · exact List.filter_sublist l
  · exact List.filter_sublist l
  · exact List.filter_sublist l

theorem applyFilters_sublist (l : List Product) (fs : FilterState) (now : Nat) :
    List.Sublist (applyFilters l fs now) l :=
  ((categoryPass_sublist fs now _).trans (searchPass_sublist fs _)).trans
    (activePass_sublist fs l)

/-- When any category other than `inactive` is active, the whole pipeline
refines the `active === true` filter applied first. -/
theorem applyFilters_sublist_activeOnly (l : List Product) (fs : FilterState)
    (now : Nat) (h : fs.activeFilter ≠ ActiveFilter.inactive) :
    List.Sublist (applyFilters l fs now) (l.filter (fun p => p.active)) := by
  have ha : activePass fs l = l.filter (fun p => p.active) := by
    unfold activePass
    exact if_pos h
  show List.Sublist (categoryPass fs now (searchPass fs (activePass fs l)))
    (l.filter (fun p => p.active))
  rw [ha]
  exact (categoryPass_sublist fs now _).trans (searchPass_sublist fs _)

theorem customerFiltered_sublist (cs : List Customer) (q : String) :
    List.Sublist (customerFiltered cs q) cs := by
  unfold customerFiltered
  split
  · exact List.filter_sublist cs
  · exact List.Sublist.refl cs

theorem sortCustomers_pairwise (l : List Customer) :
    (sortCustomers l).Pairwise (fun a b => cKey b ≤ cKey a) := by
  have h := @List.sorted_mergeSort Customer (fun a b => decide (cKey b ≤ cKey a))
    (by
      intro a b c hab hbc
      simp only [decide_eq_true_eq] at *
      omega)
    (by
      intro a b
      simp only [Bool.or_eq_true, decide_eq_true_eq]
      omega)
    l
  exact h.imp (fun hab => of_decide_eq_true hab)

theorem sortByUpdatedDesc_pairwise (l : List Product) :
    SortedByUpdatedDesc (sortByUpdatedDesc l) := by
  have h := @List.sorted_mergeSort Product (fun a b => decide (tsKey b ≤ tsKey a))
    (by
      intro a b c hab hbc
      simp only [decide_eq_true_eq] at *
      omega)
    (by
      intro a b
      simp only [Bool.or_eq_true, decide_eq_true_eq]
      omega)
    l
  exact h.imp (fun hab => of_decide_eq_true hab)

theorem inv_applyFiltersC (s : CustomersScreenState)
    (h : s.customers.Pairwise (fun a b => cKey b ≤ cKey a)) :
    Inv (applyFiltersC s) := by
  refine ⟨?_, rfl, h⟩
  show (customerFiltered s.customers s.searchQuery).take s.pageSize
    = (customerFiltered s.customers s.searchQuery).take (1 * s.pageSize)
  rw [Nat.one_mul]

theorem inv_loadMoreC (s : CustomersScreenState) (h : Inv s) :
    Inv (loadMoreC s) := by
  obtain ⟨h1, h2, h3⟩ := h
  simp only [loadMoreC]
  split
  · exact ⟨h1, h2, h3⟩
  · split
    · exact ⟨h1, h2, h3⟩
    · refine ⟨?_, h2, h3⟩
      show s.paginatedCustomers ++
          (s.filteredCustomers.drop ((s.currentPage + 1 - 1) * s.pageSize)).take s.pageSize
        = s.filteredCustomers.take ((s.currentPage + 1) * s.pageSize)
      rw [Nat.add_sub_cancel, h1, Nat.succ_mul, List.take_add]

theorem inv_reachable {s : CustomersScreenState} (h : Reachable s) : Inv s := by
  induction h with
  | init => exact inv_applyFiltersC _ List.Pairwise.nil
  | step hr hs ih =>
    cases hs with
    | load cs => exact inv_applyFiltersC _ (sortCustomers_pairwise cs)
    | setQuery q => exact inv_applyFiltersC _ ih.2.2
    | loadMore => exact inv_loadMoreC _ ih

/-- `mergeSort` is well-founded-recursive, so concrete runs are evaluated by
rewriting with `mergeSort_of_sorted` on already-sorted inputs. -/
theorem sortCustomers_customers55 : sortCustomers customers55 = customers55 := by
  apply @List.mergeSort_of_sorted Customer (fun a b => decide (cKey b ≤ cKey a))
  rw [customers55, List.pairwise_replicate]
  right
  decide

theorem sortByUpdatedDesc_tiePair :
    sortByUpdatedDesc [prodTieB, prodTieA] = [prodTieB, prodTieA] := by
  apply @List.mergeSort_of_sorted Product (fun a b => decide (tsKey b ≤ tsKey a))
  decide

theorem loadMoreC_noop (s : CustomersScreenState)
    (h : s.hasMoreData = false ∨ s.isLoadingMore = true) : loadMoreC s = s := by
  have hg : (!s.hasMoreData || s.isLoadingMore) = true := by
    rcases h with h | h <;> simp [h]
  simp only [loadMoreC, hg]
  rfl

theorem loadMoreC_length (s : CustomersScreenState)
    (hInv : s.paginatedCustomers = s.filteredCustomers.take (s.currentPage * s.pageSize))
    (hm : s.hasMoreData = true) (hl : s.isLoadingMore = false) :
    (loadMoreC s).paginatedCustomers.length =
      min (s.paginatedCustomers.length + s.pageSize) s.filteredCustomers.length := by
  have hg : (!s.hasMoreData || s.isLoadingMore) = false := by
    rw [hm, hl]
    rfl
  simp only [loadMoreC, hg, Bool.false_eq_true, if_false, Nat.add_sub_cancel]
  split
  · rename_i hemp
    rw [List.isEmpty_iff_length_eq_zero, List.length_take, List.length_drop] at hemp
    show s.paginatedCustomers.length = _
    rw [hInv, List.length_take]
    generalize s.currentPage * s.pageSize = k at hemp ⊢
    omega
  · rename_i hemp
    rw [Bool.not_eq_true, List.isEmpty_eq_false, ← List.length_pos,
      List.length_take, List.length_drop] at hemp
    show (s.paginatedCustomers ++
        (s.filteredCustomers.drop (s.currentPage * s.pageSize)).take s.pageSize).length = _
    rw [hInv, List.length_append, List.length_take, List.length_take, List.length_drop]
    generalize s.currentPage * s.pageSize = k at hemp ⊢
    omega

/-! ## Claim theorems -/

/-- C1: when the active category is `inactive`, the default `active === true`
filter is suppressed and the filtered list is exactly the inactive records;
for every other category every filtered record is active; on the spec's
three-product store, `lowStock` yields exactly `prod1` and `inactive`
exactly `prod3`. -/
theorem filter_pipeline_active_asymmetry :
    (∀ (l : List Product) (now : Nat),
        applyFilters l ⟨"", ActiveFilter.inactive⟩ now = l.filter (fun p => !p.active)) ∧
    (∀ (l : List Product) (fs : FilterState) (now : Nat),
        fs.activeFilter ≠ ActiveFilter.inactive →
        ∀ p ∈ applyFilters l fs now, p.active = true) ∧
    applyFilters store3 ⟨"", ActiveFilter.lowStock⟩ 0 = [prod1] ∧
    applyFilters store3 ⟨"", ActiveFilter.inactive⟩ 0 = [prod3] := by
  refine ⟨?_, ?_, by decide, by decide⟩
  · intro l now
    rfl
  · intro l fs now h p hp
    have hmem := (applyFilters_sublist_activeOnly l fs now h).subset hp
    exact (List.mem_filter.mp hmem).2

/-- C1 witness: the general active-only fact applied to `prod1` in the
concrete `all`-category run over `store3`. -/
theorem filter_pipeline_active_asymmetry_witness : prod1.active = true :=
  filter_pipeline_active_asymmetry.2.1 store3 ⟨"", ActiveFilter.all⟩ 0
    (by decide) prod1 (by decide)

/-- C2: `loadMoreCustomers` is a no-op when there is no more data or a grow is
in flight; on reachable states it otherwise grows the visible window to
`min(visibleCount + pageSize, filteredList.length)`; and the concrete
20/20/55 scenario runs 20 → 40 → 55 → 55 with `hasMoreData` false. -/
theorem grow_spec :
    (∀ s : CustomersScreenState,
        s.hasMoreData = false ∨ s.isLoadingMore = true → loadMoreC s = s) ∧
    (∀ s : CustomersScreenState,
        Reachable s → s.hasMoreData = true → s.isLoadingMore = false →
        (loadMoreC s).paginatedCustomers.length =
          min (s.paginatedCustomers.length + s.pageSize) s.filteredCustomers.length) ∧
    (s55.pageSize = 20 ∧ s55.paginatedCustomers.length = 20 ∧
      s55.filteredCustomers.length = 55 ∧
      (loadMoreC s55).paginatedCustomers.length = 40 ∧
      (loadMoreC (loadMoreC s55)).paginatedCustomers.length = 55 ∧
      (loadMoreC (loadMoreC s55)).hasMoreData = false ∧
      loadMoreC (loadMoreC (loadMoreC s55)) = loadMoreC (loadMoreC s55)) := by
  refine ⟨loadMoreC_noop, ?_, ?_⟩
  · intro s hr hm hl
    exact loadMoreC_length s (inv_reachable hr).1 hm hl
  · simp only [s55, sortCustomers_customers55]
    decide

/-- C2 witness: the grow equation applied to the reachable state `s55`. -/
theorem grow_spec_witness :
    (loadMoreC s55).paginatedCustomers.length =
      min (s55.paginatedCustomers.length + s55.pageSize) s55.filteredCustomers.length :=
  grow_spec.2.1 s55 (Reachable.step Reachable.init (Step.load initState customers55))
    (by simp only [s55, sortCustomers_customers55]; decide)
    (by simp only [s55, sortCustomers_customers55]; decide)

/-- C5: at every reachable state of the customer screen — after any sequence
of loads, search changes (which reset the window) and grows — the rendered
`paginatedCustomers` list is a prefix of the current filtered list, of length
exactly `min(currentPage * pageSize, filteredList.length)`. -/
theorem visible_slice_invariant :
    ∀ s : CustomersScreenState, Reachable s →
      (∃ rest, s.paginatedCustomers ++ rest = s.filteredCustomers) ∧
      s.paginatedCustomers.length =
        min (s.currentPage * s.pageSize) s.filteredCustomers.length := by
  intro s hr
  obtain ⟨h1, h2, h3⟩ := inv_reachable hr
  constructor
  · exact ⟨s.filteredCustomers.drop (s.currentPage * s.pageSize),
      by rw [h1, List.take_append_drop]⟩
  · rw [h1, List.length_take]

/-- C5 witness: the prefix invariant at the reachable state `s55`. -/
theorem visible_slice_invariant_witness :
    (∃ rest, s55.paginatedCustomers ++ rest = s55.filteredCustomers) ∧
    s55.paginatedCustomers.length =
      min (s55.currentPage * s55.pageSize) s55.filteredCustomers.length :=
  visible_slice_invariant s55
    (Reachable.step Reachable.init (Step.load initState customers55))

/-- C3 counterexample: the claimed identifier tie-break does not happen. Two
records sharing `updatedAt = 5`, fetched in the order `id "b"`, `id "a"`,
stay in that order through the sort and the `all`-category pipeline, which
violates the claimed (descending timestamp, then ascending identifier)
ordering of the filtered list. -/
theorem sort_tiebreak_counterexample :
    ¬ ClaimSortedByC3 (applyFilters (sortByUpdatedDesc [prodTieB, prodTieA])
      ⟨"", ActiveFilter.all⟩ 0) := by
  intro h
  have he : applyFilters (sortByUpdatedDesc [prodTieB, prodTieA])
      ⟨"", ActiveFilter.all⟩ 0 = [prodTieB, prodTieA] := by
    rw [sortByUpdatedDesc_tiePair]
    decide
  rw [he] at h
  unfold ClaimSortedByC3 at h
  have h2 := List.rel_of_pairwise_cons h (List.mem_cons_self prodTieA [])
  revert h2
  decide

/-- C3 amended: the filtered list is always sorted by descending `updatedAt`
with a missing `updatedAt` treated as 0 (the oldest representable value);
there is no identifier tie-break — instead the sort is stable, so records
with equal keys keep their fetched order (both screens), and sorting is a
permutation of the fetch result. -/
theorem sort_desc_amended :
    (∀ (l : List Product) (fs : FilterState) (now : Nat),
        SortedByUpdatedDesc (applyFilters (sortByUpdatedDesc l) fs now)) ∧
    (∀ s : CustomersScreenState, Reachable s →
        s.filteredCustomers.Pairwise (fun a b => cKey b ≤ cKey a)) ∧
    (∀ l : List Product, List.Perm (sortByUpdatedDesc l) l) ∧
    (∀ (l : List Product) (a b : Product),
        tsKey b ≤ tsKey a → List.Sublist [a, b] l →
        List.Sublist [a, b] (sortByUpdatedDesc l)) ∧
    (∀ p : Product, p.updatedAt = none → tsKey p = 0) := by
  refine ⟨?_, ?_, ?_, ?_, ?_⟩
  · intro l fs now
    exact List.Pairwise.sublist (applyFilters_sublist _ fs now)
      (sortByUpdatedDesc_pairwise l)
  · intro s hr
    obtain ⟨h1, h2, h3⟩ := inv_reachable hr
    rw [h2]
    exact List.Pairwise.sublist (customerFiltered_sublist _ _) h3
  · intro l
    exact List.mergeSort_perm l _
  · intro l a b hab hsub
    exact List.pair_sublist_mergeSort
      (by
        intro x y z hxy hyz
        simp only [decide_eq_true_eq] at *
        omega)
      (by
        intro x y
        simp only [Bool.or_eq_true, decide_eq_true_eq]
        omega)
      (decide_eq_true hab) hsub
  · intro p h
    simp [tsKey, h]

/-- C3 witness: the customer-screen sortedness fact at the initial state. -/
theorem sort_desc_amended_witness :
    initState.filteredCustomers.Pairwise (fun a b => cKey b ≤ cKey a) :=
  sort_desc_amended.2.1 initState Reachable.init

/-- C4: `load` fails with `TenantMismatch` exactly when the supplied records
span more than one tenant, leaving the caller's store unchanged; on a
single-tenant batch it replaces the whole content. -/
theorem load_tenant_mismatch :
    ∀ (store records : List Product),
      ((∃ r₁ ∈ records, ∃ r₂ ∈ records, r₁.merchantId ≠ r₂.merchantId) →
          load records = Except.error LoadError.tenantMismatch ∧
          applyLoad store records = store) ∧
      ((∀ r₁ ∈ records, ∀ r₂ ∈ records, r₁.merchantId = r₂.merchantId) →
          load records = Except.ok records ∧ applyLoad store records = records) := by
  intro store records
  match records with
  | [] =>
    refine ⟨?_, fun _ => ⟨rfl, rfl⟩⟩
    rintro ⟨r₁, h₁, _⟩
    cases h₁
  | r :: rs =>
    constructor
    · rintro ⟨r₁, h₁, r₂, h₂, hne⟩
      have hall : ((r :: rs).all (fun x => x.merchantId == r.merchantId)) = false := by
        by_contra hc
        rw [Bool.not_eq_false, List.all_eq_true] at hc
        have e1 := hc r₁ h₁
        have e2 := hc r₂ h₂
        rw [beq_iff_eq] at e1 e2
        exact hne (e1.trans e2.symm)
      refine ⟨?_, ?_⟩
      · simp [load, hall]
      · simp [applyLoad, load, hall]
    · intro h
      have hall : ((r :: rs).all (fun x => x.merchantId == r.merchantId)) = true := by
        rw [List.all_eq_true]
        intro x hx
        rw [beq_iff_eq]
        exact h x hx r (List.mem_cons_self r rs)
      refine ⟨?_, ?_⟩
      · simp [load, hall]
      · simp [applyLoad, load, hall]

/-- C4 witness: a two-tenant batch is rejected and leaves `store3` intact;
a one-tenant batch replaces the content. -/
theorem load_tenant_mismatch_witness :
    (load [prod1, prodOtherTenant] = Except.error LoadError.tenantMismatch ∧
      applyLoad store3 [prod1, prodOtherTenant] = store3) ∧
    (load [prod1, prod2] = Except.ok [prod1, prod2] ∧
      applyLoad store3 [prod1, prod2] = [prod1, prod2]) :=
  ⟨(load_tenant_mismatch store3 [prod1, prodOtherTenant]).1
      ⟨prod1, by decide, prodOtherTenant, by decide, by decide⟩,
    (load_tenant_mismatch store3 [prod1, prod2]).2 (by decide)⟩

/-- C6: the date predicates are exactly as specified — `expiringWithin` holds
when the expiry date exists in the half-open window `(now, now + days]`,
`expired` when it exists and is at most `now`; the source's 30-day filters
coincide with them; and the three fixed-date scenario facts hold. -/
theorem date_predicates :
    (∀ (days now : Nat) (p : Product),
        expiringWithin days now p = true ↔
          ∃ d, p.expiryDate = some d ∧ now < d ∧ d ≤ now + days * (24 * 60 * 60 * 1000)) ∧
    (∀ (now : Nat) (p : Product),
        expired now p = true ↔ ∃ d, p.expiryDate = some d ∧ d ≤ now) ∧
    (∀ (now : Nat) (p : Product), expiringFilter now p = expiringWithin 30 now p) ∧
    (∀ (now : Nat) (p : Product), expiredFilter now p = expired now p) ∧
    expiringWithin 30 jan1_2024 { baseProduct with expiryDate := some jan15_2024 } = true ∧
    expiringWithin 30 jan1_2024 { baseProduct with expiryDate := some feb15_2024 } = false ∧
    expiringWithin 30 jan1_2024 { baseProduct with expiryDate := some dec31_2023 } = false ∧
    expired jan1_2024 { baseProduct with expiryDate := some dec31_2023 } = true := by
  refine ⟨?_, ?_, fun now p => rfl, fun now p => rfl,
    by decide, by decide, by decide, by decide⟩
  · intro days now p
    cases h : p.expiryDate with
    | none => simp [expiringWithin, h]
    | some d => simp [expiringWithin, h]
  · intro now p
    cases h : p.expiryDate with
    | none => simp [expired, h]
    | some d => simp [expired, h]

/-- C7 counterexample: a record with `minStock` set to 0 and stock 3 is
low-stock for the code (`0 || 5` falls back to 5, and `3 <= 5`), while the
claim's reading (compare against the stored 0) says it is not. -/
theorem below_min_stock_counterexample :
    belowMinStock { baseProduct with stockQuantity := 3, minStock := some 0 } = true ∧
    claimBelowMinStock { baseProduct with stockQuantity := 3, minStock := some 0 } = false ∧
    belowMinStock { baseProduct with stockQuantity := 3, minStock := some 0 } ≠
      claimBelowMinStock { baseProduct with stockQuantity := 3, minStock := some 0 } := by
  decide

/-- C7 amended: `belowMinStock` compares against the stored threshold when it
is set and nonzero, and against the default 5 when it is unset or set to 0
(JavaScript `||` treats 0 as falsy). -/
theorem below_min_stock_amended :
    (∀ p : Product, p.minStock = none → (belowMinStock p = true ↔ p.stockQuantity ≤ 5)) ∧
    (∀ (p : Product) (m : Nat), p.minStock = some m → 0 < m →
        (belowMinStock p = true ↔ p.stockQuantity ≤ m)) ∧
    (∀ p : Product, p.minStock = some 0 → (belowMinStock p = true ↔ p.stockQuantity ≤ 5)) := by
  refine ⟨?_, ?_, ?_⟩
  · intro p h
    simp [belowMinStock, minStockOr5, h]
  · intro p m h hm
    have hb : (m == 0) = false := by
      simp only [beq_eq_false_iff_ne, ne_eq]
      omega
    simp [belowMinStock, minStockOr5, h, hb]
  · intro p h
    simp [belowMinStock, minStockOr5, h]

/-- C7 witness: the stored-threshold case at `prod1` (threshold 5, stock 2). -/
theorem below_min_stock_amended_witness :
    belowMinStock prod1 = true ↔ prod1.stockQuantity ≤ 5 :=
  below_min_stock_amended.2.1 prod1 5 rfl (by decide)

/-- C8: suggestions are empty on a blank query; otherwise at most 5 records,
each active and matching a listed field; and against the 100-customer store
with exactly 7 matches, suggestions are exactly 5 records drawn from the
matching 7. -/
theorem suggest_spec :
    (∀ (products : List Product) (q : String),
        nonBlank q = false → productSuggest products q = []) ∧
    (∀ (products : List Product) (q : String),
        (productSuggest products q).length ≤ 5 ∧
        ∀ p ∈ productSuggest products q, p.active = true ∧ productMatches q p = true) ∧
    ((customerSuggest store100 "john").length = 5 ∧
      store100.length = 100 ∧
      (store100.filter (customerSuggestMatch "john")).length = 7 ∧
      ∀ c ∈ customerSuggest store100 "john",
        c ∈ store100.filter (customerSuggestMatch "john")) := by
  refine ⟨?_, ?_, by decide⟩
  · intro products q h
    simp [productSuggest, h]
  · intro products q
    constructor
    · unfold productSuggest
      split
      · exact List.length_take_le 5 _
      · simp
    · intro p hp
      unfold productSuggest at hp
      split at hp
      · have hmem := List.take_subset 5 _ hp
        have hb : (p.active && productMatches q p) = true := (List.mem_filter.mp hmem).2
        rw [Bool.and_eq_true] at hb
        exact hb
      · cases hp

/-- C8 witness: the blank-query case on the three-product store. -/
theorem suggest_spec_witness : productSuggest store3 " " = [] :=
  suggest_spec.1 store3 " " (by decide)

/-- C9: the suggestion computation reads only the record store and the typed
query — two screen states agreeing on `products` produce identical
suggestions whatever their filter state, filtered list, or suggestion UI
state; indeed it factors through `productSuggest` of the store alone. -/
theorem suggest_noninterference :
    (∀ (s : ProductScreenState) (q : String),
        computeSuggestions s q = productSuggest s.products q) ∧
    (∀ (s₁ s₂ : ProductScreenState) (q : String),
        s₁.products = s₂.products →
        computeSuggestions s₁ q = computeSuggestions s₂ q) := by
  refine ⟨fun s q => rfl, ?_⟩
  intro s₁ s₂ q h
  unfold computeSuggestions
  rw [h]

/-- C9 witness: two states sharing `store3` but with different filter,
filtered-list and suggestion state give the same suggestions. -/
theorem suggest_noninterference_witness :
    computeSuggestions
        { products := store3
          filters := { searchQuery := "", activeFilter := ActiveFilter.all }
          filteredProducts := []
          searchSuggestions := []
          showSuggestions := false } "prod" =
      computeSuggestions
        { products := store3
          filters := { searchQuery := "zzz", activeFilter := ActiveFilter.inactive }
          filteredProducts := [prod3]
          searchSuggestions := [prod2]
          showSuggestions := true } "prod" :=
  suggest_noninterference.2 _ _ "prod" rfl

/-- C10: the customer filtered list matches on name, phone or notes while
suggestions match only name and phone, so a customer matching the query only
in notes appears in the filtered list but never among the suggestions. -/
theorem notes_match_asymmetry :
    (∀ (cs : List Customer) (q : String) (c : Customer),
        nonBlank q = true →
        (c ∈ customerFiltered cs q ↔ c ∈ cs ∧ customerFilterMatch q c = true)) ∧
    (∀ (cs : List Customer) (q : String) (c : Customer),
        c ∈ customerSuggest cs q → customerSuggestMatch q c = true) ∧
    (∀ (cs : List Customer) (q : String) (c : Customer),
        c ∈ cs → nonBlank q = true →
        customerSuggestMatch q c = false → customerNotesMatch q c = true →
        c ∈ customerFiltered cs q ∧ c ∉ customerSuggest cs q) := by
  have hmem : ∀ (cs : List Customer) (q : String) (c : Customer),
      nonBlank q = true →
      (c ∈ customerFiltered cs q ↔ c ∈ cs ∧ customerFilterMatch q c = true) := by
    intro cs q c h
    unfold customerFiltered
    rw [if_pos h]
    exact List.mem_filter
  have hsug : ∀ (cs : List Customer) (q : String) (c : Customer),
      c ∈ customerSuggest cs q → customerSuggestMatch q c = true := by
    intro cs q c hc
    unfold customerSuggest at hc
    split at hc
    · exact (List.mem_filter.mp (List.take_subset 5 _ hc)).2
    · cases hc
  refine ⟨hmem, hsug, ?_⟩
  intro cs q c hc hq hs hn
  constructor
  · refine (hmem cs q c hq).mpr ⟨hc, ?_⟩
    unfold customerFilterMatch
    rw [hs, hn]
    rfl
  · intro hmem'
    rw [hsug cs q c hmem'] at hs
    cases hs

/-- C10 witness: a notes-only match is filtered in but not suggested. -/
theorem notes_match_asymmetry_witness :
    notesOnlyCustomer ∈ customerFiltered [notesOnlyCustomer] "vip" ∧
    notesOnlyCustomer ∉ customerSuggest [notesOnlyCustomer] "vip" :=
  notes_match_asymmetry.2.2 [notesOnlyCustomer] "vip" notesOnlyCustomer
    (by decide) (by decide) (by decide) (by decide)

end Invevo
